import Mathlib

/-!
Shallow embedding of `PageForm.clean_slug` from `gerbi/admin/forms.py`
(django-page-cms): slug normalization and sibling/child/root uniqueness
validation for pages in a hierarchical, optionally site-scoped page tree.

Pure functions model the validation routine; the Django ORM queries it
issues (`get_siblings`, `get_children`, `Page.objects.root`,
`Content.objects.filter`, `Page.slug`) are modelled as list operations over
an explicit database value.
-/

namespace Gerbi

/-- A row of the `Content` table: a typed, language-scoped attribute of a
page; `body` holds the value (for rows of type `"slug"`, the slug). -/
structure Content where
  pageId : Nat
  lang : String
  type : String
  body : String
  deriving DecidableEq, Repr

/-- A row of the `Page` table: a node of the page tree (`parent = none`
for root pages) with its many-to-many `sites` association. -/
structure Page where
  id : Nat
  parent : Option Nat
  sites : List Nat
  deriving DecidableEq, Repr

/-- The database state the validator reads: the page tree and the content
rows. -/
structure DB where
  pages : List Page
  contents : List Content
  deriving DecidableEq, Repr

/-- The `gerbi.settings` values `clean_slug` consults. -/
structure Config where
  GERBI_DEFAULT_LANGUAGE : String
  GERBI_UNIQUE_SLUG_REQUIRED : Bool
  GERBI_USE_SITE_ID : Bool
  GERBI_HIDE_SITES : Bool
  SITE_ID : Nat
  deriving DecidableEq, Repr

/-- The failures `clean_slug` can produce: one constructor per
`forms.ValidationError` message of `gerbi/admin/forms.py`, plus
`page_does_not_exist` for the `Page.objects.get(pk=target)` lookup
failing (a `Page.DoesNotExist` exception). -/
inductive CleanError where
  | default_slug_required
  | another_page_error
  | sibling_position_error
  | child_error
  | sibling_error
  | sibling_root_error
  | page_does_not_exist
  deriving DecidableEq, Repr

/-- Whitespace for Python's `str.strip()` and the regex class `\s`. -/
def is_py_space (c : Char) : Bool :=
  c == ' ' || c == '\t' || c == '\n' || c == '\r' || c == '\x0b' || c == '\x0c'

/-- The regex class `\w` over ASCII: letters, digits, underscore. -/
def is_word_char (c : Char) : Bool :=
  c.isAlpha || c.isDigit || c == '_'

/-- Python's `str.strip()`: drop leading and trailing whitespace. -/
def py_strip (s : String) : String :=
  String.mk (((s.toList.dropWhile is_py_space).reverse.dropWhile is_py_space).reverse)

/-- A separator for slugify's final `[-\s]+ -> -` substitution. -/
def is_sep (c : Char) : Bool := is_py_space c || c == '-'

/-- Replace every maximal run of separators by a single hyphen; the
`prev` flag records whether the previous kept character was a separator. -/
def collapse_aux : Bool → List Char → List Char
  | _, [] => []
  | prev, c :: rest =>
    if is_sep c then
      if prev then collapse_aux true rest
      else '-' :: collapse_aux true rest
    else c :: collapse_aux false rest

/-- Replace every maximal run of hyphens/whitespace by a single hyphen. -/
def collapse_seps (l : List Char) : List Char := collapse_aux false l

/-- Modelled from the spec: Django's `slugify` (`django.template.defaultfilters`,
not part of this repository) — "trim, lowercase, replace whitespace/unsafe
characters with hyphens": drop characters outside `[\w\s-]`, strip, lowercase,
then replace runs of hyphens/whitespace by a single hyphen. -/
def slugify (s : String) : String :=
  let kept := s.toList.filter (fun c => is_word_char c || is_py_space c || c == '-')
  let stripped := ((kept.dropWhile is_py_space).reverse.dropWhile is_py_space).reverse
  let lowered := stripped.map Char.toLower
  String.mk (collapse_seps lowered)

/-- Line 123 of `forms.py`: `slug = slugify(self.cleaned_data['slug'].strip())`. -/
def normalize_slug (raw : String) : String := slugify (py_strip raw)

/-- Modelled from the spec: the Django ORM filter `page=self.instance`.
When editing, the instance is a saved page (`inst = some p`) and a content
row matches when its foreign key equals the page's id; a new unsaved
instance has no id, and the filter matches no row. -/
def matches_inst_page : Option Page → Nat → Bool
  | none, _ => false
  | some p, i => p.id == i

/-- Modelled from the spec: `page.get_siblings()` — the pages sharing the
page's parent in the tree, the page itself excluded ("Sibling: page sharing
the same parent in the tree"; the validator compares "against target's
siblings plus target itself", so the target is not among its siblings). -/
def get_siblings (db : DB) (p : Page) : List Page :=
  db.pages.filter (fun q => q.parent == p.parent && !(q.id == p.id))

/-- Modelled from the spec: `page.get_children()` — the pages whose parent
is the page. -/
def get_children (db : DB) (p : Page) : List Page :=
  db.pages.filter (fun q => q.parent == some p.id)

/-- Modelled from the spec: `Page.objects.root()` — the root-level pages. -/
def root_pages (db : DB) : List Page :=
  db.pages.filter (fun q => q.parent == none)

/-- Modelled from the spec: `page.slug()` — the page's slug, i.e. the body
of its content row of type `"slug"` (empty when the page has none). -/
def page_slug (db : DB) (p : Page) : String :=
  match db.contents.find? (fun c => c.pageId == p.id && c.type == "slug") with
  | some c => c.body
  | none => ""

/-- Lines 143–147 of `forms.py`: the site ids the validator scopes by —
`[settings.SITE_ID]` when `GERBI_HIDE_SITES`, else the form's `sites` data. -/
def get_site_ids (cfg : Config) (data_sites : List Nat) : List Nat :=
  if cfg.GERBI_HIDE_SITES then [cfg.SITE_ID] else data_sites

/-- Lines 143–152 of `forms.py`: `intersects_sites(sibling)` — with site
scoping enabled, whether the candidate shares a site with the scoped site
ids (`sibling.sites.filter(id__in=site_ids).count() > 0`); without site
scoping every candidate passes. -/
def intersects_sites (cfg : Config) (data_sites : List Nat) (sibling : Page) : Bool :=
  if cfg.GERBI_USE_SITE_ID then
    decide (0 < (sibling.sites.filter (fun i => (get_site_ids cfg data_sites).contains i)).length)
  else
    true

/-- Lines 125–130 of `forms.py`: for the default language an empty
normalized slug is rejected; for any other language the instance must
already own a content row of type `"slug"` (in any language). -/
def check_default_slug (cfg : Config) (db : DB) (language : String)
    (inst : Option Page) (slug : String) : Option CleanError :=
  if language = cfg.GERBI_DEFAULT_LANGUAGE then
    if slug.length = 0 then some .default_slug_required else none
  else
    if (db.contents.filter
        (fun c => matches_inst_page inst c.pageId && c.type == "slug")).length = 0 then
      some .default_slug_required
    else none

/-- Lines 135–141 of `forms.py`: under `GERBI_UNIQUE_SLUG_REQUIRED`, reject
the slug when any content row of type `"slug"` with this body exists — for
a saved instance, any such row of another page; for a new page, any at all. -/
def check_unique (cfg : Config) (db : DB) (inst : Option Page)
    (slug : String) : Option CleanError :=
  if cfg.GERBI_UNIQUE_SLUG_REQUIRED then
    match inst with
    | some p =>
      if (db.contents.filter
          (fun c => !(c.pageId == p.id) && (c.body == slug && c.type == "slug"))).length ≠ 0 then
        some .another_page_error
      else none
    | none =>
      if (db.contents.filter (fun c => c.body == slug && c.type == "slug")).length ≠ 0 then
        some .another_page_error
      else none
  else none

/-- Lines 154–180 of `forms.py`: the position-based uniqueness checks,
skipped entirely under `GERBI_UNIQUE_SLUG_REQUIRED`. With a (truthy)
target and position: for `right`/`left` the compared slugs are those of
the target's site-passing siblings plus the target's own slug (appended
unconditionally); for `first-child`, those of the target's site-passing
children. Without target+position: when editing, the instance's
site-passing siblings excluding itself; otherwise the site-passing root
pages. -/
def check_position (cfg : Config) (db : DB) (inst : Option Page) (slug : String)
    (target : Option Nat) (position : Option String)
    (data_sites : List Nat) : Option CleanError :=
  if cfg.GERBI_UNIQUE_SLUG_REQUIRED then none
  else
    match target, position with
    | some tid, some pos =>
      match db.pages.find? (fun p => p.id == tid) with
      | none => some .page_does_not_exist
      | some tgt =>
        if pos = "right" ∨ pos = "left" then
          let slugs := ((get_siblings db tgt).filter
              (fun s => intersects_sites cfg data_sites s)).map (page_slug db)
            ++ [page_slug db tgt]
          if slug ∈ slugs then some .sibling_position_error else none
        else if pos = "first-child" then
          if slug ∈ ((get_children db tgt).filter
              (fun s => intersects_sites cfg data_sites s)).map (page_slug db) then
            some .child_error
          else none
        else none
    | _, _ =>
      match inst with
      | some p =>
        if slug ∈ (((get_siblings db p).filter (fun s => !(s.id == p.id))).filter
            (fun s => intersects_sites cfg data_sites s)).map (page_slug db) then
          some .sibling_error
        else none
      | none =>
        if slug ∈ ((root_pages db).filter
            (fun s => intersects_sites cfg data_sites s)).map (page_slug db) then
          some .sibling_root_error
        else none

/-- Lines 120–181 of `forms.py`, `PageForm.clean_slug`: normalize the raw
slug, then run the three raise-on-first-violation blocks in source order;
on success return the normalized slug. `inst` is the page being edited
(`none` for a new page); `target`/`position` are the hidden form fields
(`none` for absent or empty, i.e. falsy, values); `data_sites` is the
form's `sites` data. -/
def clean_slug (cfg : Config) (db : DB) (language : String) (inst : Option Page)
    (raw_slug : String) (target : Option Nat) (position : Option String)
    (data_sites : List Nat) : Except CleanError String :=
  let slug := normalize_slug raw_slug
  match check_default_slug cfg db language inst slug with
  | some e => .error e
  | none =>
    match check_unique cfg db inst slug with
    | some e => .error e
    | none =>
      match check_position cfg db inst slug target position data_sites with
      | some e => .error e
      | none => .ok slug

/-! ### Concrete fixtures -/

/-- Settings with site scoping and global slug uniqueness both disabled. -/
def cfg_plain : Config :=
  { GERBI_DEFAULT_LANGUAGE := "en", GERBI_UNIQUE_SLUG_REQUIRED := false,
    GERBI_USE_SITE_ID := false, GERBI_HIDE_SITES := false, SITE_ID := 1 }

/-- Settings with global slug uniqueness (`GERBI_UNIQUE_SLUG_REQUIRED`) enabled. -/
def cfg_unique : Config :=
  { cfg_plain with GERBI_UNIQUE_SLUG_REQUIRED := true }

/-- Settings with site scoping enabled, the scoped sites taken from the form data. -/
def cfg_sites : Config :=
  { cfg_plain with GERBI_USE_SITE_ID := true }

/-- A root page with slug `"home"` (see `db_main`). -/
def page_home : Page := { id := 1, parent := none, sites := [1] }

/-- A root page with slug `"about"` (see `db_main`). -/
def page_about : Page := { id := 2, parent := none, sites := [1] }

/-- A child of `page_home` with slug `"kid"` (see `db_main`). -/
def page_kid : Page := { id := 3, parent := some 1, sites := [1] }

/-- Two root pages and one child page, each with an english slug. -/
def db_main : DB :=
  { pages := [page_home, page_about, page_kid],
    contents :=
      [ { pageId := 1, lang := "en", type := "slug", body := "home" },
        { pageId := 2, lang := "en", type := "slug", body := "about" },
        { pageId := 3, lang := "en", type := "slug", body := "kid" } ] }

/-- A root page associated only with site 2, slug `"home"` (see `db_other_site`). -/
def page_other_site : Page := { id := 1, parent := none, sites := [2] }

/-- A single root page living on site 2 only. -/
def db_other_site : DB :=
  { pages := [page_other_site],
    contents := [ { pageId := 1, lang := "en", type := "slug", body := "home" } ] }

example : normalize_slug "  My Page!  " = "my-page" := by decide

/-! ### Characterization lemmas -/

theorem string_length_eq_zero_iff (s : String) : s.length = 0 ↔ s = "" := by
  cases s with
  | mk data => cases data <;> simp [String.length, String.ext_iff]

theorem clean_slug_eq_ok_iff (cfg : Config) (db : DB) (lang : String) (inst : Option Page)
    (raw : String) (target : Option Nat) (position : Option String) (data_sites : List Nat)
    (s : String) :
    clean_slug cfg db lang inst raw target position data_sites = .ok s ↔
      (s = normalize_slug raw ∧
       check_default_slug cfg db lang inst (normalize_slug raw) = none ∧
       check_unique cfg db inst (normalize_slug raw) = none ∧
       check_position cfg db inst (normalize_slug raw) target position data_sites = none) := by
  rcases h1 : check_default_slug cfg db lang inst (normalize_slug raw) with _ | e1 <;>
    rcases h2 : check_unique cfg db inst (normalize_slug raw) with _ | e2 <;>
      rcases h3 : check_position cfg db inst (normalize_slug raw) target position data_sites
        with _ | e3 <;>
        simp [clean_slug, h1, h2, h3, eq_comm]

theorem clean_slug_eq_error_iff (cfg : Config) (db : DB) (lang : String) (inst : Option Page)
    (raw : String) (target : Option Nat) (position : Option String) (data_sites : List Nat)
    (e : CleanError) :
    clean_slug cfg db lang inst raw target position data_sites = .error e ↔
      (check_default_slug cfg db lang inst (normalize_slug raw) = some e ∨
       (check_default_slug cfg db lang inst (normalize_slug raw) = none ∧
        check_unique cfg db inst (normalize_slug raw) = some e) ∨
       (check_default_slug cfg db lang inst (normalize_slug raw) = none ∧
        check_unique cfg db inst (normalize_slug raw) = none ∧
        check_position cfg db inst (normalize_slug raw) target position data_sites = some e)) := by
  rcases h1 : check_default_slug cfg db lang inst (normalize_slug raw) with _ | e1 <;>
    rcases h2 : check_unique cfg db inst (normalize_slug raw) with _ | e2 <;>
      rcases h3 : check_position cfg db inst (normalize_slug raw) target position data_sites
        with _ | e3 <;>
        simp [clean_slug, h1, h2, h3, eq_comm]

theorem check_default_slug_error_eq (cfg : Config) (db : DB) (lang : String)
    (inst : Option Page) (slug : String) (e : CleanError)
    (h : check_default_slug cfg db lang inst slug = some e) :
    e = .default_slug_required := by
  unfold check_default_slug at h
  split at h <;> split at h <;> simp_all

theorem check_unique_error_eq (cfg : Config) (db : DB) (inst : Option Page)
    (slug : String) (e : CleanError)
    (h : check_unique cfg db inst slug = some e) :
    e = .another_page_error := by
  unfold check_unique at h
  split at h
  · split at h <;> split at h <;> simp_all
  · simp_all

theorem check_position_error_eq (cfg : Config) (db : DB) (inst : Option Page)
    (slug : String) (target : Option Nat) (position : Option String)
    (data_sites : List Nat) (e : CleanError)
    (h : check_position cfg db inst slug target position data_sites = some e) :
    e = .page_does_not_exist ∨ e = .sibling_position_error ∨ e = .child_error ∨
      e = .sibling_error ∨ e = .sibling_root_error := by
  unfold check_position at h
  split at h
  · simp_all
  · split at h
    · split at h
      · simp_all
      · split at h
        · dsimp only at h
          split at h <;> simp_all
        · split at h
          · split at h <;> simp_all
          · simp_all
    · split at h <;> split at h <;> simp_all

theorem check_default_slug_eq_some_iff (cfg : Config) (db : DB) (lang : String)
    (inst : Option Page) (slug : String) :
    check_default_slug cfg db lang inst slug = some CleanError.default_slug_required ↔
      ((lang = cfg.GERBI_DEFAULT_LANGUAGE ∧ slug = "") ∨
       (lang ≠ cfg.GERBI_DEFAULT_LANGUAGE ∧
        ¬ ∃ c, c ∈ db.contents ∧ matches_inst_page inst c.pageId = true ∧ c.type = "slug")) := by
  unfold check_default_slug
  by_cases hl : lang = cfg.GERBI_DEFAULT_LANGUAGE <;>
    by_cases hz : slug.length = 0 <;>
      simp_all [string_length_eq_zero_iff, List.length_eq_zero, List.filter_eq_nil_iff,
        Bool.and_eq_true, beq_iff_eq]

theorem check_default_slug_eq_none_iff (cfg : Config) (db : DB) (lang : String)
    (inst : Option Page) (slug : String) :
    check_default_slug cfg db lang inst slug = none ↔
      ¬ check_default_slug cfg db lang inst slug = some CleanError.default_slug_required := by
  cases h : check_default_slug cfg db lang inst slug with
  | none => simp
  | some e =>
    have he := check_default_slug_error_eq cfg db lang inst slug e h
    simp [he]

theorem check_unique_eq_none_of_off (cfg : Config) (db : DB) (inst : Option Page)
    (slug : String) (hu : cfg.GERBI_UNIQUE_SLUG_REQUIRED = false) :
    check_unique cfg db inst slug = none := by
  simp [check_unique, hu]

theorem check_position_eq_none_of_unique (cfg : Config) (db : DB) (inst : Option Page)
    (slug : String) (target : Option Nat) (position : Option String) (data_sites : List Nat)
    (hu : cfg.GERBI_UNIQUE_SLUG_REQUIRED = true) :
    check_position cfg db inst slug target position data_sites = none := by
  simp [check_position, hu]

theorem check_unique_eq_some_iff (cfg : Config) (db : DB) (inst : Option Page)
    (slug : String) (hu : cfg.GERBI_UNIQUE_SLUG_REQUIRED = true) :
    check_unique cfg db inst slug = some CleanError.another_page_error ↔
      ∃ c, c ∈ db.contents ∧ c.type = "slug" ∧ c.body = slug ∧
        (∀ p, inst = some p → c.pageId ≠ p.id) := by
  unfold check_unique
  cases inst with
  | none =>
    simp [hu, ← List.length_pos, List.length_pos_iff_exists_mem, List.mem_filter,
      Bool.and_eq_true, beq_iff_eq]
    tauto
  | some p =>
    simp [hu, ← List.length_pos, List.length_pos_iff_exists_mem, List.mem_filter,
      Bool.and_eq_true, beq_iff_eq, beq_eq_false_iff_ne]
    tauto

theorem mem_get_siblings_id_ne (db : DB) (p q : Page) (h : q ∈ get_siblings db p) :
    (q.id == p.id) = false := by
  unfold get_siblings at h
  have hq := (List.mem_filter.mp h).2
  simp only [Bool.and_eq_true, Bool.not_eq_true'] at hq
  exact hq.2

theorem check_position_lr_eval (cfg : Config) (db : DB) (inst : Option Page) (slug : String)
    (tid : Nat) (pos : String) (data_sites : List Nat) (tgt : Page)
    (hu : cfg.GERBI_UNIQUE_SLUG_REQUIRED = false)
    (hf : db.pages.find? (fun p => p.id == tid) = some tgt)
    (hp : pos = "left" ∨ pos = "right") :
    check_position cfg db inst slug (some tid) (some pos) data_sites =
      (if slug ∈ ((get_siblings db tgt).filter
            (fun s => intersects_sites cfg data_sites s)).map (page_slug db)
          ++ [page_slug db tgt]
       then some CleanError.sibling_position_error else none) := by
  rcases hp with hp | hp <;> subst hp <;> simp [check_position, hu, hf]

theorem check_position_lr_some_iff (cfg : Config) (db : DB) (inst : Option Page) (slug : String)
    (tid : Nat) (pos : String) (data_sites : List Nat) (tgt : Page)
    (hu : cfg.GERBI_UNIQUE_SLUG_REQUIRED = false)
    (hf : db.pages.find? (fun p => p.id == tid) = some tgt)
    (hp : pos = "left" ∨ pos = "right") :
    check_position cfg db inst slug (some tid) (some pos) data_sites =
        some CleanError.sibling_position_error ↔
      (slug = page_slug db tgt ∨
       ∃ q, q ∈ get_siblings db tgt ∧ intersects_sites cfg data_sites q = true ∧
         page_slug db q = slug) := by
  rw [check_position_lr_eval cfg db inst slug tid pos data_sites tgt hu hf hp]
  by_cases hm : slug ∈ ((get_siblings db tgt).filter
        (fun s => intersects_sites cfg data_sites s)).map (page_slug db)
      ++ [page_slug db tgt] <;>
    simp only [hm, if_true, if_false] <;>
      simp_all [List.mem_append, List.mem_map, List.mem_filter] <;> tauto

theorem check_position_fc_some_iff (cfg : Config) (db : DB) (inst : Option Page) (slug : String)
    (tid : Nat) (data_sites : List Nat) (tgt : Page)
    (hu : cfg.GERBI_UNIQUE_SLUG_REQUIRED = false)
    (hf : db.pages.find? (fun p => p.id == tid) = some tgt) :
    check_position cfg db inst slug (some tid) (some "first-child") data_sites =
        some CleanError.child_error ↔
      ∃ q, q ∈ get_children db tgt ∧ intersects_sites cfg data_sites q = true ∧
        page_slug db q = slug := by
  by_cases hm : slug ∈ ((get_children db tgt).filter
      (fun s => intersects_sites cfg data_sites s)).map (page_slug db) <;>
    simp_all [check_position, hu, hf, List.mem_map, List.mem_filter] <;> tauto

theorem check_position_notarget_inst_some_iff (cfg : Config) (db : DB) (p : Page)
    (slug : String) (target : Option Nat) (position : Option String) (data_sites : List Nat)
    (hu : cfg.GERBI_UNIQUE_SLUG_REQUIRED = false)
    (htp : target = none ∨ position = none) :
    check_position cfg db (some p) slug target position data_sites =
        some CleanError.sibling_error ↔
      ∃ q, q ∈ get_siblings db p ∧ intersects_sites cfg data_sites q = true ∧
        page_slug db q = slug := by
  have hfilter : (get_siblings db p).filter (fun s => !(s.id == p.id)) = get_siblings db p := by
    apply List.filter_eq_self.mpr
    intro q hq
    simp [mem_get_siblings_id_ne db p q hq]
  rcases htp with h | h
  · subst h
    by_cases hm : slug ∈ ((get_siblings db p).filter
        (fun s => intersects_sites cfg data_sites s)).map (page_slug db) <;>
      simp_all [check_position, hu, hfilter, List.mem_map, List.mem_filter] <;> tauto
  · subst h
    cases target with
    | none =>
      by_cases hm : slug ∈ ((get_siblings db p).filter
          (fun s => intersects_sites cfg data_sites s)).map (page_slug db) <;>
        simp_all [check_position, hu, hfilter, List.mem_map, List.mem_filter] <;> tauto
    | some tid =>
      by_cases hm : slug ∈ ((get_siblings db p).filter
          (fun s => intersects_sites cfg data_sites s)).map (page_slug db) <;>
        simp_all [check_position, hu, hfilter, List.mem_map, List.mem_filter] <;> tauto

theorem check_position_notarget_inst_none_iff (cfg : Config) (db : DB)
    (slug : String) (target : Option Nat) (position : Option String) (data_sites : List Nat)
    (hu : cfg.GERBI_UNIQUE_SLUG_REQUIRED = false)
    (htp : target = none ∨ position = none) :
    check_position cfg db none slug target position data_sites =
        some CleanError.sibling_root_error ↔
      ∃ q, q ∈ root_pages db ∧ intersects_sites cfg data_sites q = true ∧
        page_slug db q = slug := by
  rcases htp with h | h
  · subst h
    by_cases hm : slug ∈ ((root_pages db).filter
        (fun s => intersects_sites cfg data_sites s)).map (page_slug db) <;>
      simp_all [check_position, hu, List.mem_map, List.mem_filter] <;> tauto
  · subst h
    cases target with
    | none =>
      by_cases hm : slug ∈ ((root_pages db).filter
          (fun s => intersects_sites cfg data_sites s)).map (page_slug db) <;>
        simp_all [check_position, hu, List.mem_map, List.mem_filter] <;> tauto
    | some tid =>
      by_cases hm : slug ∈ ((root_pages db).filter
          (fun s => intersects_sites cfg data_sites s)).map (page_slug db) <;>
        simp_all [check_position, hu, List.mem_map, List.mem_filter] <;> tauto

/-! ### Claims -/

/-- C1: for every pair of sibling pages at the same tree position, if
validation of the second page's slug passes (no validation error is raised
by `clean_slug`), its normalized slug differs from the first sibling's
slug — stated, within a single site scope, for each way `clean_slug`
places the page: next to an explicit left/right target (the target and its
site-passing siblings), as first child of a target (becoming a sibling of
the target's site-passing children), next to the edited page's current
siblings, or at the root level. -/
theorem C1_validated_sibling_slugs_differ (cfg : Config) (db : DB) (lang : String)
    (inst : Option Page) (raw : String) (target : Option Nat) (position : Option String)
    (data_sites : List Nat) (s : String)
    (hu : cfg.GERBI_UNIQUE_SLUG_REQUIRED = false)
    (hok : clean_slug cfg db lang inst raw target position data_sites = Except.ok s) :
    (∀ tid pos tgt, target = some tid → position = some pos →
       (pos = "left" ∨ pos = "right") →
       db.pages.find? (fun p => p.id == tid) = some tgt →
       page_slug db tgt ≠ s ∧
         ∀ q, q ∈ get_siblings db tgt → intersects_sites cfg data_sites q = true →
           page_slug db q ≠ s) ∧
    (∀ tid tgt, target = some tid → position = some "first-child" →
       db.pages.find? (fun p => p.id == tid) = some tgt →
       ∀ q, q ∈ get_children db tgt → intersects_sites cfg data_sites q = true →
         page_slug db q ≠ s) ∧
    (∀ i, inst = some i → (target = none ∨ position = none) →
       ∀ q, q ∈ get_siblings db i → intersects_sites cfg data_sites q = true →
         page_slug db q ≠ s) ∧
    (inst = none → (target = none ∨ position = none) →
       ∀ q, q ∈ root_pages db → intersects_sites cfg data_sites q = true →
         page_slug db q ≠ s) := by
  obtain ⟨hs, hd, hun, hpos⟩ :=
    (clean_slug_eq_ok_iff cfg db lang inst raw target position data_sites s).mp hok
  subst hs
  refine ⟨?_, ?_, ?_, ?_⟩
  · intro tid pos tgt ht hp hlr hf
    subst ht
    subst hp
    have hiff := check_position_lr_some_iff cfg db inst (normalize_slug raw)
      tid pos data_sites tgt hu hf hlr
    constructor
    · intro hcontra
      have hsome := hiff.mpr (Or.inl hcontra.symm)
      rw [hpos] at hsome
      exact Option.noConfusion hsome
    · intro q hq hsite hcontra
      have hsome := hiff.mpr (Or.inr ⟨q, hq, hsite, hcontra⟩)
      rw [hpos] at hsome
      exact Option.noConfusion hsome
  · intro tid tgt ht hp hf q hq hsite hcontra
    subst ht
    subst hp
    have hsome := (check_position_fc_some_iff cfg db inst (normalize_slug raw)
      tid data_sites tgt hu hf).mpr ⟨q, hq, hsite, hcontra⟩
    rw [hpos] at hsome
    exact Option.noConfusion hsome
  · intro i hi htp q hq hsite hcontra
    subst hi
    have hsome := (check_position_notarget_inst_some_iff cfg db i (normalize_slug raw)
      target position data_sites hu htp).mpr ⟨q, hq, hsite, hcontra⟩
    rw [hpos] at hsome
    exact Option.noConfusion hsome
  · intro hi htp q hq hsite hcontra
    subst hi
    have hsome := (check_position_notarget_inst_none_iff cfg db (normalize_slug raw)
      target position data_sites hu htp).mpr ⟨q, hq, hsite, hcontra⟩
    rw [hpos] at hsome
    exact Option.noConfusion hsome

/-- C1 witness: a new page validated as left sibling of `page_home` with raw
slug `"new-page"` passes and its slug differs from sibling `page_about`'s;
validated as first child of `page_home`, it passes and its slug differs from
child `page_kid`'s. -/
theorem C1_witness :
    page_slug db_main page_about ≠ "new-page" ∧ page_slug db_main page_kid ≠ "new-page" :=
  ⟨((C1_validated_sibling_slugs_differ cfg_plain db_main "en" none "new-page"
      (some 1) (some "left") [] "new-page" rfl rfl).1 1 "left" page_home rfl rfl
      (Or.inl rfl) rfl).2 page_about (by decide) rfl,
   (C1_validated_sibling_slugs_differ cfg_plain db_main "en" none "new-page"
      (some 1) (some "first-child") [] "new-page" rfl rfl).2.1 1 page_home rfl rfl
      rfl page_kid (by decide) rfl⟩

/-- C2 counterexample: with site scoping enabled, the target page itself is a
member of the comparison set whose site set (`[2]`) is disjoint from the
provided site ids (`[1]`), yet it does cause the sibling-at-position
validation error — the code appends `target.slug()` without the site filter. -/
theorem C2_counterexample :
    intersects_sites cfg_sites [1] page_other_site = false ∧
      clean_slug cfg_sites db_other_site "en" none "home" (some 1) (some "left") [1] =
        Except.error CleanError.sibling_position_error :=
  ⟨rfl, rfl⟩

/-- C2 (amended): when site-scoping is enabled and unique_mode is disabled,
every *sibling* candidate is filtered by site-intersection, so a sibling on a
disjoint site never blocks reuse of its slug; the target page itself, however,
is compared unconditionally: whenever the sibling-at-position error is raised,
either the normalized slug equals the target's own slug or some
site-intersecting sibling carries it. -/
theorem C2_sibling_site_filter (cfg : Config) (db : DB) (lang : String)
    (inst : Option Page) (raw : String) (tid : Nat) (pos : String)
    (data_sites : List Nat) (tgt : Page)
    (hu : cfg.GERBI_UNIQUE_SLUG_REQUIRED = false)
    (hf : db.pages.find? (fun p => p.id == tid) = some tgt)
    (hlr : pos = "left" ∨ pos = "right")
    (herr : clean_slug cfg db lang inst raw (some tid) (some pos) data_sites =
      Except.error CleanError.sibling_position_error) :
    page_slug db tgt = normalize_slug raw ∨
      ∃ q, q ∈ get_siblings db tgt ∧ intersects_sites cfg data_sites q = true ∧
        page_slug db q = normalize_slug raw := by
  rcases (clean_slug_eq_error_iff cfg db lang inst raw (some tid) (some pos) data_sites
      CleanError.sibling_position_error).mp herr with h | ⟨_, h⟩ | ⟨_, _, h⟩
  · have := check_default_slug_error_eq cfg db lang inst (normalize_slug raw) _ h
    exact absurd this (by simp)
  · have := check_unique_error_eq cfg db inst (normalize_slug raw) _ h
    exact absurd this (by simp)
  · rcases (check_position_lr_some_iff cfg db inst (normalize_slug raw)
        tid pos data_sites tgt hu hf hlr).mp h with h' | h'
    · exact Or.inl h'.symm
    · exact Or.inr h'

/-- C2 (amended) witness: at the concrete error of `C2_counterexample`, the
match is the target's own (unfiltered) slug. -/
theorem C2_witness :
    page_slug db_other_site page_other_site = normalize_slug "home" ∨
      ∃ q, q ∈ get_siblings db_other_site page_other_site ∧
        intersects_sites cfg_sites [1] q = true ∧
        page_slug db_other_site q = normalize_slug "home" :=
  C2_sibling_site_filter cfg_sites db_other_site "en" none "home" 1 "left" [1]
    page_other_site rfl rfl (Or.inl rfl) rfl

/-- C3: with unique mode enabled (and the default-slug checks passing),
`clean_slug` raises the duplicate-page error iff some content row of type
`"slug"` with body equal to the normalized slug belongs to a page other
than the one being edited (own rows excluded when editing); target,
position and site data are arbitrary — the check is global. -/
theorem C3_unique_mode_global (cfg : Config) (db : DB) (lang : String)
    (inst : Option Page) (raw : String) (target : Option Nat) (position : Option String)
    (data_sites : List Nat)
    (hu : cfg.GERBI_UNIQUE_SLUG_REQUIRED = true)
    (hd : check_default_slug cfg db lang inst (normalize_slug raw) = none) :
    clean_slug cfg db lang inst raw target position data_sites =
        Except.error CleanError.another_page_error ↔
      ∃ c, c ∈ db.contents ∧ c.type = "slug" ∧ c.body = normalize_slug raw ∧
        (∀ p, inst = some p → c.pageId ≠ p.id) := by
  constructor
  · intro herr
    rcases (clean_slug_eq_error_iff cfg db lang inst raw target position data_sites
        CleanError.another_page_error).mp herr with h | ⟨_, h⟩ | ⟨_, _, h⟩
    · have := check_default_slug_error_eq cfg db lang inst (normalize_slug raw) _ h
      exact absurd this (by simp)
    · exact (check_unique_eq_some_iff cfg db inst (normalize_slug raw) hu).mp h
    · rw [check_position_eq_none_of_unique cfg db inst (normalize_slug raw)
        target position data_sites hu] at h
      exact Option.noConfusion h
  · intro hex
    exact (clean_slug_eq_error_iff cfg db lang inst raw target position data_sites
        CleanError.another_page_error).mpr
      (Or.inr (Or.inl ⟨hd, (check_unique_eq_some_iff cfg db inst (normalize_slug raw) hu).mpr hex⟩))

/-- C3 witness: creating a new root page with raw slug `"home"` under unique
mode fails globally — even with a nonexistent target id and unknown position. -/
theorem C3_witness :
    ∃ c, c ∈ db_main.contents ∧ c.type = "slug" ∧ c.body = normalize_slug "home" ∧
      (∀ p, (none : Option Page) = some p → c.pageId ≠ p.id) :=
  (C3_unique_mode_global cfg_unique db_main "en" none "home" (some 9) (some "weird") []
    rfl rfl).mp rfl

/-- C4: with unique mode disabled, an explicit target and position left or
right (and the default-slug checks passing), `clean_slug` raises the
sibling-at-position error exactly when the normalized slug equals the
target page's own slug or the slug of a site-passing sibling of the target. -/
theorem C4_left_right_error_iff (cfg : Config) (db : DB) (lang : String)
    (inst : Option Page) (raw : String) (tid : Nat) (pos : String)
    (data_sites : List Nat) (tgt : Page)
    (hu : cfg.GERBI_UNIQUE_SLUG_REQUIRED = false)
    (hf : db.pages.find? (fun p => p.id == tid) = some tgt)
    (hlr : pos = "left" ∨ pos = "right")
    (hd : check_default_slug cfg db lang inst (normalize_slug raw) = none) :
    clean_slug cfg db lang inst raw (some tid) (some pos) data_sites =
        Except.error CleanError.sibling_position_error ↔
      (normalize_slug raw = page_slug db tgt ∨
       ∃ q, q ∈ get_siblings db tgt ∧ intersects_sites cfg data_sites q = true ∧
         page_slug db q = normalize_slug raw) := by
  rw [clean_slug_eq_error_iff]
  simp only [hd, check_unique_eq_none_of_off cfg db inst (normalize_slug raw) hu,
    check_position_lr_some_iff cfg db inst (normalize_slug raw) tid pos data_sites tgt hu hf hlr]
  simp

/-- C4 witness: validating raw slug `"about"` as new left sibling of
`page_home` collides with sibling `page_about` and errors. -/
theorem C4_witness :
    clean_slug cfg_plain db_main "en" none "about" (some 1) (some "left") [] =
      Except.error CleanError.sibling_position_error :=
  (C4_left_right_error_iff cfg_plain db_main "en" none "about" 1 "left" [] page_home
    rfl rfl (Or.inl rfl) rfl).mpr (Or.inr ⟨page_about, by decide, rfl, rfl⟩)

/-- C5: with unique mode disabled, an explicit target and position
first-child (and the default-slug checks passing), `clean_slug` raises the
child-at-position error exactly when the normalized slug equals the slug of
a site-passing child of the target. -/
theorem C5_first_child_error_iff (cfg : Config) (db : DB) (lang : String)
    (inst : Option Page) (raw : String) (tid : Nat)
    (data_sites : List Nat) (tgt : Page)
    (hu : cfg.GERBI_UNIQUE_SLUG_REQUIRED = false)
    (hf : db.pages.find? (fun p => p.id == tid) = some tgt)
    (hd : check_default_slug cfg db lang inst (normalize_slug raw) = none) :
    clean_slug cfg db lang inst raw (some tid) (some "first-child") data_sites =
        Except.error CleanError.child_error ↔
      ∃ q, q ∈ get_children db tgt ∧ intersects_sites cfg data_sites q = true ∧
        page_slug db q = normalize_slug raw := by
  rw [clean_slug_eq_error_iff]
  simp only [hd, check_unique_eq_none_of_off cfg db inst (normalize_slug raw) hu,
    check_position_fc_some_iff cfg db inst (normalize_slug raw) tid data_sites tgt hu hf]
  simp

/-- C5 witness: validating raw slug `"kid"` as new first child of `page_home`
collides with child `page_kid` and errors. -/
theorem C5_witness :
    clean_slug cfg_plain db_main "en" none "kid" (some 1) (some "first-child") [] =
      Except.error CleanError.child_error :=
  (C5_first_child_error_iff cfg_plain db_main "en" none "kid" 1 [] page_home
    rfl rfl rfl).mpr ⟨page_kid, by decide, rfl, rfl⟩

/-- C6: with unique mode disabled and no explicit target+position pair (and
the default-slug checks passing): when editing, the sibling error is raised
exactly when a site-passing current sibling other than the page itself
carries the normalized slug; when creating, the sibling-at-root error is
raised exactly when a site-passing root page carries it. -/
theorem C6_no_target_error_iff (cfg : Config) (db : DB) (lang : String)
    (inst : Option Page) (raw : String) (target : Option Nat) (position : Option String)
    (data_sites : List Nat)
    (hu : cfg.GERBI_UNIQUE_SLUG_REQUIRED = false)
    (htp : target = none ∨ position = none)
    (hd : check_default_slug cfg db lang inst (normalize_slug raw) = none) :
    (∀ i, inst = some i →
       (clean_slug cfg db lang inst raw target position data_sites =
           Except.error CleanError.sibling_error ↔
         ∃ q, q ∈ get_siblings db i ∧ intersects_sites cfg data_sites q = true ∧
           page_slug db q = normalize_slug raw)) ∧
    (inst = none →
       (clean_slug cfg db lang inst raw target position data_sites =
           Except.error CleanError.sibling_root_error ↔
         ∃ q, q ∈ root_pages db ∧ intersects_sites cfg data_sites q = true ∧
           page_slug db q = normalize_slug raw)) := by
  constructor
  · intro i hi
    subst hi
    rw [clean_slug_eq_error_iff]
    simp only [hd, check_unique_eq_none_of_off cfg db (some i) (normalize_slug raw) hu,
      check_position_notarget_inst_some_iff cfg db i (normalize_slug raw)
        target position data_sites hu htp]
    simp
  · intro hi
    subst hi
    rw [clean_slug_eq_error_iff]
    simp only [hd, check_unique_eq_none_of_off cfg db none (normalize_slug raw) hu,
      check_position_notarget_inst_none_iff cfg db (normalize_slug raw)
        target position data_sites hu htp]
    simp

/-- C6 witness: editing `page_home` (no target/position) and submitting raw
slug `"about"` collides with current sibling `page_about` and errors. -/
theorem C6_witness :
    clean_slug cfg_plain db_main "en" (some page_home) "about" none none [] =
      Except.error CleanError.sibling_error :=
  ((C6_no_target_error_iff cfg_plain db_main "en" (some page_home) "about" none none []
    rfl (Or.inl rfl) rfl).1 page_home rfl).mpr ⟨page_about, by decide, rfl, rfl⟩

/-- C7: `clean_slug` raises the default-slug-required error iff either the
language is the default language and the normalized slug is empty, or the
language is non-default and the page being validated owns no content row of
type `"slug"` in any language; in particular a non-empty normalized slug in
the default language never triggers it. -/
theorem C7_default_slug_required_iff (cfg : Config) (db : DB) (lang : String)
    (inst : Option Page) (raw : String) (target : Option Nat) (position : Option String)
    (data_sites : List Nat) :
    clean_slug cfg db lang inst raw target position data_sites =
        Except.error CleanError.default_slug_required ↔
      ((lang = cfg.GERBI_DEFAULT_LANGUAGE ∧ normalize_slug raw = "") ∨
       (lang ≠ cfg.GERBI_DEFAULT_LANGUAGE ∧
        ¬ ∃ c, c ∈ db.contents ∧ matches_inst_page inst c.pageId = true ∧
          c.type = "slug")) := by
  rw [clean_slug_eq_error_iff, ← check_default_slug_eq_some_iff]
  constructor
  · rintro (h | ⟨_, h⟩ | ⟨_, _, h⟩)
    · exact h
    · have := check_unique_error_eq cfg db inst (normalize_slug raw) _ h
      exact absurd this (by simp)
    · have := check_position_error_eq cfg db inst (normalize_slug raw)
        target position data_sites _ h
      simp at this
  · intro h
    exact Or.inl h

/-- C8: the value `clean_slug` returns on success is always the slugify of
the whitespace-trimmed raw input, never the raw input itself; in particular
`"  My Page!  "` normalizes to `"my-page"` and validates as a new root page. -/
theorem C8_returns_normalized_slug :
    (∀ (cfg : Config) (db : DB) (lang : String) (inst : Option Page) (raw : String)
       (target : Option Nat) (position : Option String) (data_sites : List Nat) (s : String),
       clean_slug cfg db lang inst raw target position data_sites = Except.ok s →
       s = slugify (py_strip raw)) ∧
      normalize_slug "  My Page!  " = "my-page" ∧
      clean_slug cfg_plain db_main "en" none "  My Page!  " none none [] =
        Except.ok "my-page" := by
  refine ⟨?_, by decide, rfl⟩
  intro cfg db lang inst raw target position data_sites s hok
  exact ((clean_slug_eq_ok_iff cfg db lang inst raw target position data_sites s).mp hok).1

/-- C8 witness: at a successful concrete validation, the returned slug is the
normalized form of the raw input. -/
theorem C8_witness : "my-page" = slugify (py_strip "  My Page!  ") :=
  C8_returns_normalized_slug.1 cfg_plain db_main "en" none "  My Page!  " none none []
    "my-page" rfl

/-- C9: with unique mode disabled, a target and position both provided but
the position none of left/right/first-child (and the default-slug checks
passing), `clean_slug` performs no sibling, child or root uniqueness check
and returns the normalized slug. -/
theorem C9_unknown_position_skips_checks (cfg : Config) (db : DB) (lang : String)
    (inst : Option Page) (raw : String) (tid : Nat) (pos : String)
    (data_sites : List Nat) (tgt : Page)
    (hu : cfg.GERBI_UNIQUE_SLUG_REQUIRED = false)
    (hf : db.pages.find? (fun p => p.id == tid) = some tgt)
    (h1 : pos ≠ "left") (h2 : pos ≠ "right") (h3 : pos ≠ "first-child")
    (hd : check_default_slug cfg db lang inst (normalize_slug raw) = none) :
    clean_slug cfg db lang inst raw (some tid) (some pos) data_sites =
      Except.ok (normalize_slug raw) := by
  rw [clean_slug_eq_ok_iff]
  refine ⟨rfl, hd, check_unique_eq_none_of_off cfg db inst (normalize_slug raw) hu, ?_⟩
  simp [check_position, hu, hf, h1, h2, h3]

/-- C9 witness: position `"last-child"` bypasses every uniqueness check —
the raw slug `"about"` collides with a sibling of the target yet validates. -/
theorem C9_witness :
    clean_slug cfg_plain db_main "en" none "about" (some 1) (some "last-child") [] =
      Except.ok "about" :=
  C9_unknown_position_skips_checks cfg_plain db_main "en" none "about" 1 "last-child" []
    page_home rfl rfl (by decide) (by decide) (by decide) rfl

/-- C10: when an existing page is edited with an explicit left/right target
(and the default-slug checks passing), the page being edited is not excluded
from the comparison set: if it is a site-passing sibling of the target, or is
the target itself, resubmitting its own unchanged slug raises the
sibling-at-position error. -/
theorem C10_edited_page_not_excluded (cfg : Config) (db : DB) (lang : String)
    (raw : String) (tid : Nat) (pos : String) (data_sites : List Nat) (tgt i : Page)
    (hu : cfg.GERBI_UNIQUE_SLUG_REQUIRED = false)
    (hf : db.pages.find? (fun p => p.id == tid) = some tgt)
    (hlr : pos = "left" ∨ pos = "right")
    (hd : check_default_slug cfg db lang (some i) (normalize_slug raw) = none)
    (hslug : page_slug db i = normalize_slug raw)
    (hmem : (i ∈ get_siblings db tgt ∧ intersects_sites cfg data_sites i = true) ∨
      i.id = tgt.id) :
    clean_slug cfg db lang (some i) raw (some tid) (some pos) data_sites =
      Except.error CleanError.sibling_position_error := by
  rw [clean_slug_eq_error_iff]
  refine Or.inr (Or.inr
    ⟨hd, check_unique_eq_none_of_off cfg db (some i) (normalize_slug raw) hu, ?_⟩)
  rw [check_position_lr_some_iff cfg db (some i) (normalize_slug raw)
    tid pos data_sites tgt hu hf hlr]
  rcases hmem with ⟨hm, hi⟩ | hid
  · exact Or.inr ⟨i, hm, hi, hslug⟩
  · left
    have hts : page_slug db tgt = page_slug db i := by
      unfold page_slug
      rw [← hid]
    rw [hts, hslug]

/-- C10 witness: editing `page_about`, targeting `page_home` as left sibling,
and resubmitting its own slug `"about"` raises the sibling-at-position error. -/
theorem C10_witness :
    clean_slug cfg_plain db_main "en" (some page_about) "about" (some 1) (some "left") [] =
      Except.error CleanError.sibling_position_error :=
  C10_edited_page_not_excluded cfg_plain db_main "en" "about" 1 "left" [] page_home
    page_about rfl rfl (Or.inl rfl) rfl rfl (Or.inl ⟨by decide, rfl⟩)

end Gerbi
